import Mathlib

/-! Shallow embedding of the `peruse` browser agent (src/peruse/agent.py):
the action executor (navigate, click, type, get_text, find_element), the
command loop (`execute`) and the session shutdown (`close`).  Browser and
language-model effects are modelled as explicit oracles threaded through
the definitions; Python string operations are modelled on character lists
so that everything evaluates inside the kernel. -/

namespace Peruse

deriving instance DecidableEq for Except

/-! ## Python string primitives -/

/-- Python `t in s` on character lists: `t` occurs contiguously in the list. -/
def charsContain (t : List Char) : List Char → Bool
  | [] => t.isEmpty
  | c :: rest => t.isPrefixOf (c :: rest) || charsContain t rest

/-- Python `t in s` for strings. -/
def strContains (s t : String) : Bool := charsContain t.toList s.toList

/-- Python `s.upper()` (character-wise case mapping). -/
def pyUpper (s : String) : String := String.mk (s.toList.map Char.toUpper)

/-- Python `s.lower()` (character-wise case mapping). -/
def pyLower (s : String) : String := String.mk (s.toList.map Char.toLower)

/-- Python `s.startswith(p)`. -/
def pyStartsWith (s p : String) : Bool := p.toList.isPrefixOf s.toList

/-- Python `s.find(c)` for a single character: index of the first
occurrence, `none` standing for Python's -1. -/
def pyFindChar (cs : List Char) (c : Char) : Option Nat := cs.findIdx? (· = c)

/-- Python `s.rfind(c)` for a single character: index of the last
occurrence, `none` standing for Python's -1. -/
def pyRFindChar (cs : List Char) (c : Char) : Option Nat :=
  match pyFindChar cs.reverse c with
  | none => none
  | some i => some (cs.length - 1 - i)

theorem charsContain_iff (t : List Char) (s : List Char) :
    charsContain t s = true ↔ t <:+: s := by
  induction s with
  | nil =>
    simp [charsContain, List.isEmpty_iff]
  | cons c rest ih =>
    simp only [charsContain, Bool.or_eq_true, List.infix_cons_iff, ih,
      List.isPrefixOf_iff_prefix]

theorem strContains_iff (s t : String) :
    strContains s t = true ↔ t.toList <:+: s.toList := by
  simpa [strContains] using charsContain_iff t.toList s.toList

/-! ## Data model: action history and DOM elements -/

/-- One record of the agent's `self.action_history` list (a dict in the
source, one shape per action kind). -/
inductive HistoryEntry where
  | navigate (url : String)
  | click (selector : String)
  | type (selector text : String)
  | get_text (selector result : String)
  deriving DecidableEq, Repr

/-- The state a CSS selector resolves to on a page.  `interactErr` models
an exception raised by the browser engine while interacting with this
element (stability wait, scroll, focus, typing, clicking); `none` means
interaction succeeds. -/
structure ElementState where
  visible : Bool
  enabled : Bool
  textContent : String
  interactErr : Option String := none
  deriving DecidableEq, Repr

/-- A page's DOM at one instant: CSS selector to the first matching
element, `none` when no element is attached. -/
def Page : Type := String → Option ElementState

/-! ## navigate -/

/-- The scheme normalization at the top of `BrowserAgent.navigate`:
prepend `https://` unless the url already starts with `http://` or
`https://`. -/
def normalizeUrl (url : String) : String :=
  if pyStartsWith url "http://" || pyStartsWith url "https://" then url
  else "https://" ++ url

/-- Oracle for one `navigate` call's browser effects.  `gotoResult` is the
first `page.goto`: an error when it raises, otherwise whether a response
object was returned.  `altNav` is the `window.location.href` fallback used
when no response came back.  `urlAfter` is `page.url` read back after the
two (non-fatal) load-state waits.  `retry` is the combined close-page,
new-page, direct-goto recovery attempt. -/
structure NavOracle where
  gotoResult : Except String Bool
  altNav : Except String Unit
  urlAfter : String
  retry : Except String Unit

/-- The body of `navigate`'s `try` block: goto, optional fallback, the
blank-page verification, then the history append and result string. -/
def navigateAttempt (o : NavOracle) (url : String) :
    Except String (String × List HistoryEntry) :=
  match o.gotoResult with
  | .error e => .error e
  | .ok gotResponse =>
    match (if gotResponse then Except.ok () else o.altNav) with
    | .error e => .error e
    | .ok _ =>
      if o.urlAfter = "" ∨ o.urlAfter = "about:blank" then
        .error "Navigation failed - page is blank"
      else
        .ok ("Navigated to " ++ o.urlAfter, [.navigate url])

/-- `BrowserAgent.navigate`: normalize the scheme, try once, and on any
failure make exactly one fresh-page recovery attempt; if that also fails
raise an error carrying both error texts.  The fresh-page success path
returns without appending a history record. -/
def navigate (o : NavOracle) (url0 : String) :
    Except String (String × List HistoryEntry) :=
  let url := normalizeUrl url0
  match navigateAttempt o url with
  | .ok r => .ok r
  | .error e =>
    let errorMsg := "❌ Error navigating to " ++ url ++ ": " ++ e
    match o.retry with
    | .ok _ => .ok ("Navigated to " ++ url ++ " (with fresh page)", [])
    | .error retryError =>
      .error (errorMsg ++ "\nRetry also failed: " ++ retryError)

/-! ## click -/

/-- `BrowserAgent.click`: wait for a visible element (the wait raises a
timeout when none becomes visible), interact with it, then append one
history record. -/
def click (page : Page) (selector : String) :
    Except String (String × List HistoryEntry) :=
  match page selector with
  | none => .error ("Timeout 5000ms exceeded waiting for selector " ++ selector)
  | some st =>
    if !st.visible then
      .error ("Timeout 5000ms exceeded waiting for selector " ++ selector)
    else
      match st.interactErr with
      | some e => .error e
      | none => .ok ("Clicked element matching " ++ selector, [.click selector])

/-! ## type -/

/-- The fallback submit-button selectors tried inside `type` when the page
still looks like Google's landing page, in declared order. -/
def typeButtonSelectors : List String :=
  ["input[name='btnK']",
   "input[value='Google Search']",
   ".gNO89b",
   "[aria-label='Google Search']"]

/-- The submit-button fallback loop in `type`: each candidate is waited
for (visible, 2s); a timeout, an invisible element or a failing
click-or-load moves on to the next candidate; a successful click breaks
the loop.  Returns the candidates attempted, in order. -/
def tryButtons (page : Page) : List String → List String
  | [] => []
  | b :: rest =>
    match page b with
    | none => b :: tryButtons page rest
    | some st =>
      if !st.visible then b :: tryButtons page rest
      else
        match st.interactErr with
        | some _ => b :: tryButtons page rest
        | none => [b]

/-- Oracle for one `type` call: the DOM when the input field is resolved,
the outcome of the post-Enter `wait_for_load_state` (a raise is caught and
only logged), the page URL after the Enter press, and the DOM the fallback
submit buttons are looked up in. -/
structure TypeEnv where
  page : Page
  loadAfterEnter : Except String Unit
  urlAfterEnter : String
  pageAfterEnter : Page

/-- `BrowserAgent.type`: resolve the field, clear it, type the text, press
Enter; when the post-Enter load wait succeeds and the URL contains
"google.com" but not "search", try the fallback submit buttons.  Returns
the result string, the history delta and the fallback buttons attempted. -/
def type (env : TypeEnv) (selector text : String) :
    Except String (String × List HistoryEntry × List String) :=
  match env.page selector with
  | none => .error ("Timeout 10000ms exceeded waiting for selector " ++ selector)
  | some st =>
    if !st.visible then
      .error ("Timeout 10000ms exceeded waiting for selector " ++ selector)
    else
      match st.interactErr with
      | some e => .error e
      | none =>
        .ok ("Typed '" ++ text ++ "' into " ++ selector ++ " and submitted",
             [.type selector text],
             match env.loadAfterEnter with
             | .error _ => []
             | .ok _ =>
               if strContains env.urlAfterEnter "google.com"
                   && !(strContains env.urlAfterEnter "search") then
                 tryButtons env.pageAfterEnter typeButtonSelectors
               else [])

/-! ## get_text -/

/-- `BrowserAgent.get_text`.  `pageAtWait` is the DOM when
`wait_for_selector(state="visible")` runs — that wait raises a timeout
when no matching element is visible; `pageAtQuery` is the DOM at the later
`query_selector` call.  Only the element-found path appends a history
record; the element-gone path returns a descriptive string with no
record. -/
def get_text (pageAtWait pageAtQuery : Page) (selector : String) :
    Except String (String × List HistoryEntry) :=
  match pageAtWait selector with
  | none => .error ("Timeout 30000ms exceeded waiting for selector " ++ selector)
  | some st =>
    if !st.visible then
      .error ("Timeout 30000ms exceeded waiting for selector " ++ selector)
    else
      match pageAtQuery selector with
      | some el => .ok (el.textContent, [.get_text selector el.textContent])
      | none => .ok ("No element found matching " ++ selector, [])

/-! ## find_element -/

/-- The fixed search-category candidate selectors
(`selector_maps["search"]`), in declared order. -/
def searchSelectors : List String :=
  ["[name='q']",
   "#searchbox_input",
   "[data-testid='searchbox_input']",
   "[type='text']",
   "[type='search']",
   "[role='searchbox']",
   "input[placeholder*='search']",
   "input[placeholder*='Search']"]

/-- The fixed button-category candidate selectors
(`selector_maps["button"]`), in declared order. -/
def buttonSelectors : List String :=
  ["[type='submit']",
   "button[type='submit']",
   "[aria-label*='search' i]",
   "[aria-label*='Search' i]",
   "button[aria-label*='search' i]",
   "button[aria-label*='Search' i]"]

/-- The category choice in `find_element`: "search" when the lowercased
description contains one of "search", "input", "text", else "button". -/
def selectorType (description : String) : String :=
  if ["search", "input", "text"].any (fun term => strContains (pyLower description) term)
  then "search" else "button"

/-- Whether one candidate passes `find_element`'s three checks: attached
(the `state="attached"` wait succeeds), visible, and enabled.  A selector
failing any check (or whose wait raises) is skipped. -/
def qualifies (page : Page) (selector : String) : Bool :=
  match page selector with
  | none => false
  | some st => st.visible && st.enabled

/-- `BrowserAgent.find_element`: classify the description, then return the
first candidate selector of the chosen category that is attached, visible
and enabled; raise when every candidate is exhausted.  No history record
is appended on success. -/
def find_element (page : Page) (description : String) :
    Except String (String × List HistoryEntry) :=
  match (if selectorType description = "search" then searchSelectors
         else buttonSelectors).find? (qualifies page) with
  | some selector => .ok (selector, [])
  | none =>
    .error ("Could not find interactive element matching description: " ++ description)

/-! ## The command loop (`execute`) -/

/-- One role-tagged message of the conversation sent to `get_completion`. -/
structure Message where
  role : String
  content : String
  deriving DecidableEq, Repr

/-- The browser state the command loop reads (the active page's URL) and
the action history it grows through dispatched actions. -/
structure World where
  url : String
  history : List HistoryEntry
  deriving DecidableEq, Repr

/-- A parsed JSON value (the output of `json.loads`). -/
inductive JsonVal where
  | null
  | bool (b : Bool)
  | num (n : Int)
  | str (s : String)
  | arr (xs : List JsonVal)
  | obj (fields : List (String × JsonVal))

/-- Python `isinstance(v, dict)` for a parsed JSON value. -/
def JsonVal.isDict : JsonVal → Bool
  | .obj _ => true
  | _ => false

/-- Python `v[key]` / `key in v` on a parsed JSON object: `none` for a
missing key or a non-dict value. -/
def JsonVal.lookup (v : JsonVal) (key : String) : Option JsonVal :=
  match v with
  | .obj fields => fields.lookup key
  | _ => none

/-- The five keys of `self.tools`, as the dict literal declares them. -/
def toolNames : List String := ["navigate", "click", "type", "get_text", "find_element"]

/-- Python `action["tool"] in self.tools`: only a string equal to one of
the five tool names selects a tool; any other value fails the test (an
unhashable value raises instead, which is likewise a pre-dispatch
failure). -/
def toolNameOf : JsonVal → Option String
  | .str s => if toolNames.contains s then some s else none
  | _ => none

/-- The open-brace character, written by code point. -/
def lbraceChar : Char := Char.ofNat 123

/-- The close-brace character, written by code point. -/
def rbraceChar : Char := Char.ofNat 125

/-- The JSON extraction in `execute`: the slice of the model reply from
the first open brace to the last close brace, kept only when
`json_start >= 0 and json_end > json_start` (with `json_end` one past the
last close brace); `none` makes `execute` raise its malformed-reply
error. -/
def extractJson (response : String) : Option String :=
  match pyFindChar response.toList lbraceChar,
        pyRFindChar response.toList rbraceChar with
  | some jsonStart, some lastClose =>
    if jsonStart < lastClose + 1 then
      some (String.mk ((response.toList.drop jsonStart).take
        (lastClose + 1 - jsonStart)))
    else none
  | _, _ => none

/-- The system prompt `execute` opens every conversation with (the
module-level SYSTEM_PROMPT string of the source). -/
def SYSTEM_PROMPT : String :=
  "You are a browser automation expert. Your task is to control a web browser to accomplish user objectives.
You have access to these tools:

- find_element: Find an element on the page using various strategies
- navigate: Navigate to a specified URL
- click: Click an element on the page using CSS selector
- type: Type text into an input field using CSS selector
- get_text: Get text content from an element using CSS selector

For complex tasks, break them down into individual steps. For example:
1. To search on Google:
   - First navigate to Google
   - Find the search box
   - Type in the search query
   - Find and click the search button

IMPORTANT: You must ALWAYS respond with ONLY a valid JSON object and nothing else. No natural language responses.
The JSON must follow this exact format:
\x7b
    \"tool\": \"tool_name\",
    \"args\": \x7b
        \"arg1\": \"value1\",
        ...
    \x7d
\x7d

Examples:
1. To find a search box:
\x7b
    \"tool\": \"find_element\",
    \"args\": \x7b
        \"description\": \"search input box\"
    \x7d
\x7d

2. To type in a found element:
\x7b
    \"tool\": \"type\",
    \"args\": \x7b
        \"selector\": \"SELECTOR_FROM_FIND_ELEMENT\",
        \"text\": \"search query\"
    \x7d
\x7d

Remember:
1. Respond with ONLY the JSON object, no other text
2. Execute one action at a time
3. Make sure the JSON is properly formatted
4. Use find_element to locate elements before interacting with them
"

/-- The context string sent with every proposal request. -/
def mkContext (currentUrl command : String) : String :=
  "Current page: " ++ currentUrl ++ "\nCommand: " ++ command

/-- The two messages every proposal request is built from.  The loop
rebuilds this list from scratch on every recursive `execute` call; the
grown conversation of the previous round is not carried into it. -/
def proposalMessages (currentUrl command : String) : List Message :=
  [⟨"system", SYSTEM_PROMPT⟩, ⟨"user", mkContext currentUrl command⟩]

/-- The continuation-check question appended after an executed action. -/
def continuationQuestion (result currentUrl command : String) : String :=
  "Previous action result: " ++ result ++ "\nCurrent URL: " ++ currentUrl ++
  "\nAre we done with the command: " ++ command ++
  "? If not, what's the next step? Respond with a new action JSON or 'DONE' if complete."

/-- The external collaborators of one `execute` run: `llm` is
`get_completion`, `parseJson` is `json.loads` (an error when it raises
JSONDecodeError), `pyStr` is Python `str()` of a parsed value, `runTool`
is the dispatch `self.tools[tool](**args)` returning the result string
and the updated browser state, and `stabilize` is the unguarded
`wait_for_load_state("networkidle")` after the action. -/
structure ExecEnv where
  llm : List Message → String
  parseJson : String → Except String JsonVal
  pyStr : JsonVal → String
  runTool : String → JsonVal → World → Except String (String × World)
  stabilize : World → Except String World

/-- The conversation grown after one executed action: the proposal
messages plus the two `messages.append` calls (the executed action and
the continuation question). -/
def grownConversation (env : ExecEnv) (w : World) (command : String)
    (action : JsonVal) (result : String) (w2 : World) : List Message :=
  proposalMessages w.url command ++
    [⟨"assistant", env.pyStr action⟩,
     ⟨"user", continuationQuestion result w2.url command⟩]

/-- `BrowserAgent.execute(command)`, with fuel bounding the source's
unbounded recursion (fuel 0 stands for a run that never returns; the
setup precondition `self.llm` is assumed).  Returns the outcome, the
conversation passed to each `get_completion` call in order, and the final
browser state. -/
def execute (env : ExecEnv) : Nat → World → String →
    Except String String × List (List Message) × World
  | 0, w, _ => (.error "recursion does not terminate", [], w)
  | fuel + 1, w, command =>
    let messages := proposalMessages w.url command
    let response := env.llm messages
    match extractJson response with
    | none => (.error "No JSON object found in response", [messages], w)
    | some jsonStr =>
      match env.parseJson jsonStr with
      | .error e => (.error ("Invalid JSON response from LLM: " ++ e), [messages], w)
      | .ok action =>
        match action, action.lookup "tool", action.lookup "args" with
        | .obj _, some toolVal, some args =>
          (match toolNameOf toolVal with
          | none => (.error ("Unknown tool: " ++ env.pyStr toolVal), [messages], w)
          | some toolName =>
            match env.runTool toolName args w with
            | .error e => (.error e, [messages], w)
            | .ok (result, w1) =>
              match env.stabilize w1 with
              | .error e => (.error e, [messages], w1)
              | .ok w2 =>
                let messages2 := grownConversation env w command action result w2
                let nextResponse := env.llm messages2
                if strContains (pyUpper nextResponse) "DONE" then
                  (.ok result, [messages, messages2], w2)
                else
                  match execute env fuel w2 command with
                  | (r, log, w3) => (r, [messages, messages2] ++ log, w3))
        | _, _, _ => (.error "Invalid action format", [messages], w)

/-! ## close -/

/-- The three releases `close` may perform: `none` when the corresponding
resource is absent (attribute is None / was never set), otherwise the
outcome of releasing it. -/
structure CloseState where
  browser : Option (Except String Unit)
  playwright : Option (Except String Unit)
  chromeProcess : Option (Except String Unit)
  deriving DecidableEq, Repr

/-- What one `close()` call did: which releases were attempted and the
overall outcome. -/
structure CloseTrace where
  browserAttempted : Bool
  playwrightAttempted : Bool
  killAttempted : Bool
  outcome : Except String Unit
  deriving DecidableEq, Repr

/-- `BrowserAgent.close`: release the browser connection, the playwright
engine and the spawned Chrome process, in that order, with no exception
handling — a raise propagates immediately and the remaining releases are
not attempted. -/
def close (s : CloseState) : CloseTrace :=
  match s.browser with
  | some (.error e) => ⟨true, false, false, .error e⟩
  | b =>
    match s.playwright with
    | some (.error e) => ⟨b.isSome, true, false, .error e⟩
    | p =>
      match s.chromeProcess with
      | some (.error e) => ⟨b.isSome, p.isSome, true, .error e⟩
      | c => ⟨b.isSome, p.isSome, c.isSome, .ok ()⟩

/-! ## Helper lemmas -/

theorem pyStartsWith_append (p r : String) : pyStartsWith (p ++ r) p = true := by
  have h : (p ++ r).toList = p.toList ++ r.toList := by
    simp [String.toList]
  simp [pyStartsWith, h, List.isPrefixOf_iff_prefix]

theorem find?_of_prefix_none {α : Type} (p : α → Bool) (pre : List α) (x : α)
    (rest : List α) (hpre : ∀ y ∈ pre, p y = false) (hx : p x = true) :
    (pre ++ x :: rest).find? p = some x := by
  induction pre with
  | nil => simp [List.find?_cons, hx]
  | cons a as ih =>
    have ha := hpre a (by simp)
    simp only [List.cons_append, List.find?_cons, ha, cond_false]
    exact ih (fun y hy => hpre y (by simp [hy]))

/-! ## C8: scheme normalization -/

/-- C8: the scheme normalization in `navigate` is idempotent: a url
already starting with "http://" or "https://" passes through unchanged,
any other url gets exactly "https://" prepended, and normalizing an
already normalized url changes nothing. -/
theorem normalizeUrl_idempotent (url : String) :
    (pyStartsWith url "http://" = true ∨ pyStartsWith url "https://" = true →
       normalizeUrl url = url) ∧
    (pyStartsWith url "http://" = false → pyStartsWith url "https://" = false →
       normalizeUrl url = "https://" ++ url) ∧
    normalizeUrl (normalizeUrl url) = normalizeUrl url := by
  by_cases h : (pyStartsWith url "http://" || pyStartsWith url "https://") = true
  · refine ⟨fun _ => ?_, fun h1 h2 => ?_, ?_⟩
    · simp [normalizeUrl, h]
    · rw [h1, h2] at h; simp at h
    · simp [normalizeUrl, h]
  · have h' := h
    simp only [Bool.or_eq_true, not_or, Bool.not_eq_true] at h'
    refine ⟨fun hor => ?_, fun _ _ => ?_, ?_⟩
    · rcases hor with h1 | h1 <;> simp [h1] at h'
    · simp [normalizeUrl, h]
    · have hstep : normalizeUrl url = "https://" ++ url := by simp [normalizeUrl, h]
      rw [hstep]
      have : pyStartsWith ("https://" ++ url) "https://" = true :=
        pyStartsWith_append "https://" url
      simp [normalizeUrl, this]

/-! ## C6: find_element classification and first-match selection -/

/-- C6: `find_element` uses the search-category candidates exactly when
the lowercased description contains "search", "input" or "text" (else the
button-category candidates), tries the chosen category's candidates in
declared order and returns the first that is attached, visible and
enabled — in particular the first qualifying candidate after any prefix
of non-qualifying ones — and raises its element-not-found error when no
candidate qualifies. -/
theorem find_element_first_match (page : Page) (description : String)
    (pre : List String) (selector : String) (rest : List String)
    (hsplit : (if selectorType description = "search" then searchSelectors
               else buttonSelectors) = pre ++ selector :: rest)
    (hpre : ∀ s ∈ pre, qualifies page s = false)
    (hsel : qualifies page selector = true) :
    (selectorType description = "search" ↔
       (strContains (pyLower description) "search" = true ∨
        strContains (pyLower description) "input" = true ∨
        strContains (pyLower description) "text" = true)) ∧
    find_element page description = .ok (selector, []) ∧
    (∀ p2 : Page,
       (∀ s ∈ (if selectorType description = "search" then searchSelectors
               else buttonSelectors), qualifies p2 s = false) →
       find_element p2 description =
         .error ("Could not find interactive element matching description: "
                 ++ description)) := by
  refine ⟨?_, ?_, ?_⟩
  · constructor
    · intro hs
      by_contra hcon
      push_neg at hcon
      simp only [Bool.not_eq_true] at hcon
      have : selectorType description = "button" := by
        simp [selectorType, List.any_eq_true, hcon.1, hcon.2.1, hcon.2.2]
      rw [this] at hs
      exact absurd hs (by decide)
    · intro hor
      have : ["search", "input", "text"].any
          (fun term => strContains (pyLower description) term) = true := by
        simp only [List.any_eq_true]
        rcases hor with h | h | h
        · exact ⟨"search", by simp, h⟩
        · exact ⟨"input", by simp, h⟩
        · exact ⟨"text", by simp, h⟩
      simp [selectorType, this]
  · have hfind := find?_of_prefix_none (qualifies page) pre selector rest hpre hsel
    simp [find_element, hsplit, hfind]
  · intro p2 hnone
    have hfind : List.find? (qualifies p2)
        (if selectorType description = "search" then searchSelectors
         else buttonSelectors) = none :=
      List.find?_eq_none.mpr (fun x hx => by simp [hnone x hx])
    simp [find_element, hfind]

/-- A DOM in which, of the search-category candidates, only the third is
attached, visible and enabled. -/
def pageThird : Page := fun sel =>
  if sel = "[data-testid='searchbox_input']" then some ⟨true, true, "", none⟩ else none

/-- C6 witness: on `pageThird` the description "search box" selects the
search category and `find_element` returns exactly the third candidate. -/
theorem find_element_first_match_witness :
    find_element pageThird "search box" = .ok ("[data-testid='searchbox_input']", []) :=
  (find_element_first_match pageThird "search box"
    ["[name='q']", "#searchbox_input"] "[data-testid='searchbox_input']"
    ["[type='text']", "[type='search']", "[role='searchbox']",
     "input[placeholder*='search']", "input[placeholder*='Search']"]
    (by decide) (by decide) (by decide)).2.1

/-! ## C3: get_text on a missing element -/

/-- A DOM with no element attached at all. -/
def emptyPage : Page := fun _ => none

/-- C3 counterexample: on a page where the selector matches no element,
`get_text` raises (the `wait_for_selector(state="visible")` call times
out) instead of returning the descriptive string the claim promises. -/
theorem get_text_missing_raises_cex :
    get_text emptyPage emptyPage "#results" =
      .error "Timeout 30000ms exceeded waiting for selector #results" ∧
    get_text emptyPage emptyPage "#results" ≠
      .ok ("No element found matching #results", []) := by
  exact ⟨by decide, by decide⟩

/-- C3 amended: when the selector matches no visible element the
preceding wait raises, so `get_text` propagates an error; the literal
string "No element found matching <selector>" is returned (without
raising and without a history record) only when the wait finds a visible
element and the element is gone by the time of the follow-up query. -/
theorem get_text_missing_element (pageAtWait pageAtQuery : Page) (selector : String)
    (st : ElementState) (hwait : pageAtWait selector = some st)
    (hvis : st.visible = true) (hquery : pageAtQuery selector = none) :
    get_text pageAtWait pageAtQuery selector =
      .ok ("No element found matching " ++ selector, []) ∧
    (∀ pw : Page, pw selector = none →
       get_text pw pageAtQuery selector =
         .error ("Timeout 30000ms exceeded waiting for selector " ++ selector)) := by
  constructor
  · simp [get_text, hwait, hvis, hquery]
  · intro pw h
    simp [get_text, h]

/-- A DOM in which "#price" is visible at the wait. -/
def ghostPage : Page := fun sel =>
  if sel = "#price" then some ⟨true, true, "42", none⟩ else none

/-- C3 witness: the element is visible at the wait but gone at the query,
so the descriptive string comes back without an error. -/
theorem get_text_missing_element_witness :
    get_text ghostPage emptyPage "#price" =
      .ok ("No element found matching #price", []) :=
  (get_text_missing_element ghostPage emptyPage "#price"
    ⟨true, true, "42", none⟩ (by decide) rfl rfl).1

/-! ## C9: close() release behavior -/

/-- C9 amended: `close` attempts the releases in order — browser
connection, playwright engine, spawned process — but an exception from an
earlier release propagates at once and the remaining releases are not
attempted; all three are attempted only when every earlier release
succeeds. -/
theorem close_short_circuits (s : CloseState) :
    (∀ e, s.browser = some (.error e) →
       close s = ⟨true, false, false, .error e⟩) ∧
    (∀ e, s.browser = some (.ok ()) → s.playwright = some (.error e) →
       close s = ⟨true, true, false, .error e⟩) ∧
    (s.browser = some (.ok ()) → s.playwright = some (.ok ()) →
     s.chromeProcess = some (.ok ()) →
       close s = ⟨true, true, true, .ok ()⟩) := by
  refine ⟨fun e h => ?_, fun e h1 h2 => ?_, fun h1 h2 h3 => ?_⟩
  · simp [close, h]
  · simp [close, h1, h2]
  · simp [close, h1, h2, h3]

/-- A session state whose browser release raises while the playwright
engine and the spawned process are still alive. -/
def failingClose : CloseState :=
  ⟨some (.error "browser close failed"), some (.ok ()), some (.ok ())⟩

/-- C9 counterexample: with the browser release raising, the playwright
engine and the spawned process are present yet never released — the
failing release short-circuits the remaining ones. -/
theorem close_short_circuits_cex :
    failingClose.playwright.isSome = true ∧
    failingClose.chromeProcess.isSome = true ∧
    (close failingClose).playwrightAttempted = false ∧
    (close failingClose).killAttempted = false := by
  decide

/-! ## C10: type's fallback submit buttons -/

/-- C10: the fallback submit-button selectors in `type` are attempted only
when, after the Enter press, the load wait succeeded and the page URL
contains "google.com" but not "search"; for every other resulting URL
`type` returns right after the Enter press with no fallback attempted. -/
theorem type_fallback_only_on_google (env : TypeEnv) (selector text res : String)
    (hist : List HistoryEntry) (att : List String)
    (hok : type env selector text = .ok (res, hist, att)) :
    res = "Typed '" ++ text ++ "' into " ++ selector ++ " and submitted" ∧
    hist = [HistoryEntry.type selector text] ∧
    (att ≠ [] →
       env.loadAfterEnter = .ok () ∧
       strContains env.urlAfterEnter "google.com" = true ∧
       strContains env.urlAfterEnter "search" = false) ∧
    (strContains env.urlAfterEnter "google.com" = false ∨
     strContains env.urlAfterEnter "search" = true → att = []) := by
  unfold type at hok
  split at hok
  · exact absurd hok (by simp)
  · split at hok
    · exact absurd hok (by simp)
    · split at hok
      · exact absurd hok (by simp)
      · simp only [Except.ok.injEq, Prod.mk.injEq] at hok
        obtain ⟨hres, hhist, hatt⟩ := hok
        subst hres hhist hatt
        refine ⟨rfl, rfl, ?_, ?_⟩
        · intro hne
          rcases hload : env.loadAfterEnter with e | u
          · rw [hload] at hne
            simp at hne
          · cases u
            by_cases hc : (strContains env.urlAfterEnter "google.com"
                && !(strContains env.urlAfterEnter "search")) = true
            · have hc' := hc
              simp only [Bool.and_eq_true, Bool.not_eq_true'] at hc'
              exact ⟨rfl, hc'.1, hc'.2⟩
            · rw [hload] at hne
              exact absurd (by simp [hc]) hne
        · intro hor
          rcases hload : env.loadAfterEnter with e | u
          · rfl
          · cases u
            have hc : (strContains env.urlAfterEnter "google.com"
                && !(strContains env.urlAfterEnter "search")) = false := by
              rcases hor with h | h <;> simp [h]
            simp [hc]

/-- A Google landing page after typing: the first fallback button is
visible and clickable. -/
def envGoogle : TypeEnv :=
  ⟨fun sel => if sel = "[name='q']" then some ⟨true, true, "", none⟩ else none,
   .ok (), "https://www.google.com/",
   fun sel => if sel = "input[name='btnK']" then some ⟨true, true, "", none⟩ else none⟩

/-- C10 witness: on a still-unsubmitted Google landing URL the fallback
buttons are attempted, and the fallback condition holds. -/
theorem type_fallback_only_on_google_witness :
    envGoogle.loadAfterEnter = .ok () ∧
    strContains envGoogle.urlAfterEnter "google.com" = true ∧
    strContains envGoogle.urlAfterEnter "search" = false :=
  (type_fallback_only_on_google envGoogle "[name='q']" "cats"
    "Typed 'cats' into [name='q'] and submitted"
    [HistoryEntry.type "[name='q']" "cats"]
    ["input[name='btnK']"] (by decide)).2.2.1 (by decide)

/-! ## C7: navigate's single fresh-page recovery -/

/-- C7: when the first navigation attempt fails, the one recovery attempt
decides the outcome — its success returns the fresh-page result, and its
failure raises an error whose text carries both the original error text
and the retry error text. -/
theorem navigate_single_retry (o : NavOracle) (url e retryErr : String)
    (hfail : navigateAttempt o (normalizeUrl url) = .error e)
    (hretry : o.retry = .error retryErr) :
    navigate o url =
      .error ("❌ Error navigating to " ++ normalizeUrl url ++ ": " ++ e ++
              "\nRetry also failed: " ++ retryErr) ∧
    strContains ("❌ Error navigating to " ++ normalizeUrl url ++ ": " ++ e ++
                 "\nRetry also failed: " ++ retryErr) e = true ∧
    strContains ("❌ Error navigating to " ++ normalizeUrl url ++ ": " ++ e ++
                 "\nRetry also failed: " ++ retryErr) retryErr = true ∧
    (∀ o2 : NavOracle, o2.gotoResult = o.gotoResult → o2.altNav = o.altNav →
       o2.urlAfter = o.urlAfter → o2.retry = .ok () →
       navigate o2 url =
         .ok ("Navigated to " ++ normalizeUrl url ++ " (with fresh page)", [])) := by
  refine ⟨?_, ?_, ?_, ?_⟩
  · simp [navigate, hfail, hretry]
  · rw [strContains_iff]
    refine ⟨("❌ Error navigating to " ++ normalizeUrl url ++ ": ").toList,
            ("\nRetry also failed: " ++ retryErr).toList, ?_⟩
    simp [String.toList]
  · rw [strContains_iff]
    refine ⟨("❌ Error navigating to " ++ normalizeUrl url ++ ": " ++ e ++
             "\nRetry also failed: ").toList, [], ?_⟩
    simp [String.toList]
  · intro o2 h1 h2 h3 h4
    have hatt : navigateAttempt o2 (normalizeUrl url) =
        navigateAttempt o (normalizeUrl url) := by
      unfold navigateAttempt
      rw [h1, h2, h3]
    simp [navigate, hatt, hfail, h4]

/-- A navigation oracle whose first goto raises and whose fresh-page
retry also raises. -/
def oFail : NavOracle :=
  ⟨.error "net::ERR_CONNECTION_REFUSED", .ok (), "", .error "Timeout 30000ms exceeded"⟩

/-- C7 witness: both attempts fail and the raised error text carries both
error messages. -/
theorem navigate_single_retry_witness :
    navigate oFail "example.com" =
      .error "❌ Error navigating to https://example.com: net::ERR_CONNECTION_REFUSED\nRetry also failed: Timeout 30000ms exceeded" := by
  rw [(navigate_single_retry oFail "example.com" "net::ERR_CONNECTION_REFUSED"
        "Timeout 30000ms exceeded" (by decide) rfl).1]
  decide

/-! ## C1: action-history appends -/

/-- A DOM whose only attached, visible, enabled element is the generic
submit button. -/
def submitPage : Page := fun sel =>
  if sel = "[type='submit']" then some ⟨true, true, "", none⟩ else none

/-- C1 counterexample: a successful `find_element` call appends no
action-history record (the claim promises exactly one). -/
theorem find_element_no_history_cex :
    find_element submitPage "submit button" = .ok ("[type='submit']", []) ∧
    (∀ res h, find_element submitPage "submit button" = .ok (res, h) →
       h.length = 0) := by
  refine ⟨by decide, fun res h heq => ?_⟩
  rw [show find_element submitPage "submit button" = .ok ("[type='submit']", [])
        from by decide] at heq
  simp only [Except.ok.injEq, Prod.mk.injEq] at heq
  rw [← heq.2]
  rfl

/-- C1 amended: navigate's primary-path success, click, type and
get_text's element-found path each append exactly one structured record;
find_element success, navigate's fresh-page-retry success and get_text's
element-vanished return append none; every failure path propagates before
any append, so a failing execution appends no record. -/
theorem action_history_amended :
    (∀ (o : NavOracle) (url res : String) (h : List HistoryEntry),
       navigateAttempt o url = .ok (res, h) → h = [HistoryEntry.navigate url]) ∧
    (∀ (o : NavOracle) (url e : String),
       navigateAttempt o (normalizeUrl url) = .error e → o.retry = .ok () →
       navigate o url =
         .ok ("Navigated to " ++ normalizeUrl url ++ " (with fresh page)", [])) ∧
    (∀ (page : Page) (selector res : String) (h : List HistoryEntry),
       click page selector = .ok (res, h) → h = [HistoryEntry.click selector]) ∧
    (∀ (env : TypeEnv) (selector text res : String) (h : List HistoryEntry)
       (att : List String),
       type env selector text = .ok (res, h, att) →
       h = [HistoryEntry.type selector text]) ∧
    (∀ (pw pq : Page) (selector res : String) (h : List HistoryEntry),
       get_text pw pq selector = .ok (res, h) →
       h = [HistoryEntry.get_text selector res] ∨
         (res = "No element found matching " ++ selector ∧ h = [])) ∧
    (∀ (page : Page) (description res : String) (h : List HistoryEntry),
       find_element page description = .ok (res, h) → h = []) := by
  refine ⟨?_, ?_, ?_, ?_, ?_, ?_⟩
  · intro o url res h heq
    unfold navigateAttempt at heq
    split at heq
    · exact absurd heq (by simp)
    · split at heq
      · exact absurd heq (by simp)
      · split at heq
        · exact absurd heq (by simp)
        · simp only [Except.ok.injEq, Prod.mk.injEq] at heq
          exact heq.2.symm
  · intro o url e heq hr
    simp [navigate, heq, hr]
  · intro page selector res h heq
    unfold click at heq
    split at heq
    · exact absurd heq (by simp)
    · split at heq
      · exact absurd heq (by simp)
      · split at heq
        · exact absurd heq (by simp)
        · simp only [Except.ok.injEq, Prod.mk.injEq] at heq
          exact heq.2.symm
  · intro env selector text res h att heq
    unfold type at heq
    split at heq
    · exact absurd heq (by simp)
    · split at heq
      · exact absurd heq (by simp)
      · split at heq
        · exact absurd heq (by simp)
        · simp only [Except.ok.injEq, Prod.mk.injEq] at heq
          exact heq.2.1.symm
  · intro pw pq selector res h heq
    unfold get_text at heq
    split at heq
    · exact absurd heq (by simp)
    · split at heq
      · exact absurd heq (by simp)
      · split at heq
        · simp only [Except.ok.injEq, Prod.mk.injEq] at heq
          left
          rw [← heq.1, ← heq.2]
        · simp only [Except.ok.injEq, Prod.mk.injEq] at heq
          right
          exact ⟨heq.1.symm, heq.2.symm⟩
  · intro page description res h heq
    simp only [find_element] at heq
    split at heq
    · simp only [Except.ok.injEq, Prod.mk.injEq] at heq
      exact heq.2.symm
    · exact absurd heq (by simp)

/-! ## C4: brace extraction and the malformed-reply error -/

/-- C4: the command loop parses exactly the slice of the model reply from
the first open brace to the last close brace; when no such nonempty slice
exists, or when the slice fails to parse, `execute` raises its
malformed-reply error with the browser state untouched and without
dispatching any action (the outcome is the same for every dispatch
function). -/
theorem execute_malformed_reply (env : ExecEnv) (fuel : Nat) (w : World)
    (command : String) :
    (∀ (response : String) (i j : Nat),
       pyFindChar response.toList lbraceChar = some i →
       pyRFindChar response.toList rbraceChar = some j → i ≤ j →
       extractJson response =
         some (String.mk ((response.toList.drop i).take (j + 1 - i)))) ∧
    (extractJson (env.llm (proposalMessages w.url command)) = none →
       execute env (fuel + 1) w command =
         (.error "No JSON object found in response",
          [proposalMessages w.url command], w) ∧
       (∀ f, execute { env with runTool := f } (fuel + 1) w command =
          execute env (fuel + 1) w command)) ∧
    (∀ (js e : String),
       extractJson (env.llm (proposalMessages w.url command)) = some js →
       env.parseJson js = .error e →
       execute env (fuel + 1) w command =
         (.error ("Invalid JSON response from LLM: " ++ e),
          [proposalMessages w.url command], w) ∧
       (∀ f, execute { env with runTool := f } (fuel + 1) w command =
          execute env (fuel + 1) w command)) := by
  refine ⟨?_, ?_, ?_⟩
  · intro response i j h1 h2 hle
    unfold extractJson
    rw [h1, h2]
    simp [Nat.lt_succ_of_le hle]
  · intro hnone
    refine ⟨by simp [execute, hnone], fun f => by simp [execute, hnone]⟩
  · intro js e hjs hperr
    refine ⟨by simp [execute, hjs, hperr], fun f => by simp [execute, hjs, hperr]⟩

/-- An environment whose model reply holds no brace-delimited substring
at all. -/
def envNoJson : ExecEnv :=
  ⟨fun _ => "I will now navigate to the page.",
   fun _ => .error "Expecting value: line 1 column 1 (char 0)",
   fun _ => "", fun _ _ w => .ok ("", w), fun w => .ok w⟩

/-- C4 witness: a braceless reply makes `execute` fail with the
malformed-reply error, leaving the browser state untouched after a single
completion call. -/
theorem execute_malformed_reply_witness :
    execute envNoJson 1 ⟨"about:blank", []⟩ "Go to example.org" =
      (.error "No JSON object found in response",
       [proposalMessages "about:blank" "Go to example.org"],
       ⟨"about:blank", []⟩) :=
  ((execute_malformed_reply envNoJson 0 ⟨"about:blank", []⟩
      "Go to example.org").2.1 (by decide)).1

/-! ## C5: proposal validation -/

/-- C5: a parsed proposal that is not a dict carrying both "tool" and
"args", or whose "tool" value is not one of the five action names, makes
`execute` fail before any dispatch (the outcome is the same for every
dispatch function). -/
theorem execute_invalid_proposal (env : ExecEnv) (fuel : Nat) (w : World)
    (command js : String) (action : JsonVal)
    (hjs : extractJson (env.llm (proposalMessages w.url command)) = some js)
    (hparse : env.parseJson js = .ok action) :
    (action.isDict = false ∨ action.lookup "tool" = none ∨
     action.lookup "args" = none →
       execute env (fuel + 1) w command =
         (.error "Invalid action format", [proposalMessages w.url command], w)) ∧
    (∀ (toolVal args : JsonVal),
       action.lookup "tool" = some toolVal → action.lookup "args" = some args →
       toolNameOf toolVal = none →
       execute env (fuel + 1) w command =
         (.error ("Unknown tool: " ++ env.pyStr toolVal),
          [proposalMessages w.url command], w)) ∧
    (∀ f, action.isDict = false ∨ action.lookup "tool" = none ∨
          action.lookup "args" = none ∨
          (∃ tv, action.lookup "tool" = some tv ∧ toolNameOf tv = none) →
       execute { env with runTool := f } (fuel + 1) w command =
         execute env (fuel + 1) w command) := by
  refine ⟨?_, ?_, ?_⟩
  · intro hbad
    rcases action with _ | b | n | s | xs | fields
    case obj =>
      rcases hbad with hd | ht | ha
      · simp [JsonVal.isDict] at hd
      · simp [execute, hjs, hparse, ht]
      · rcases hlt : (JsonVal.obj fields).lookup "tool" with _ | tv
        · simp [execute, hjs, hparse, hlt]
        · simp [execute, hjs, hparse, hlt, ha]
    all_goals simp [execute, hjs, hparse]
  · intro toolVal args ht ha hn
    rcases action with _ | b | n | s | xs | fields
    case obj => simp [execute, hjs, hparse, ht, ha, hn]
    all_goals simp [JsonVal.lookup] at ht
  · intro f hbad
    rcases action with _ | b | n | s | xs | fields
    case obj =>
      rcases hbad with hd | ht | ha | ⟨tv, htv, hn⟩
      · simp [JsonVal.isDict] at hd
      · simp [execute, hjs, hparse, ht]
      · rcases hlt : (JsonVal.obj fields).lookup "tool" with _ | tv
        · simp [execute, hjs, hparse, hlt]
        · simp [execute, hjs, hparse, hlt, ha]
      · rcases hla : (JsonVal.obj fields).lookup "args" with _ | args2
        · simp [execute, hjs, hparse, htv, hla]
        · simp [execute, hjs, hparse, htv, hla, hn]
    all_goals simp [execute, hjs, hparse]

/-- An environment whose model reply parses to a proposal naming an
unrecognized tool. -/
def envBadTool : ExecEnv :=
  ⟨fun msgs => if msgs.length = 2 then "\x7bT\x7d" else "DONE",
   fun _ => .ok (.obj [("tool", .str "scroll"), ("args", .obj [])]),
   fun v => match v with | .str s => s | _ => "?",
   fun _ _ w => .ok ("", w), fun w => .ok w⟩

/-- C5 witness: a proposal whose tool is "scroll" fails with the
unknown-tool error before any dispatch, leaving the browser state
untouched. -/
theorem execute_invalid_proposal_witness :
    execute envBadTool 1 ⟨"about:blank", []⟩ "scroll down" =
      (.error "Unknown tool: scroll",
       [proposalMessages "about:blank" "scroll down"],
       ⟨"about:blank", []⟩) :=
  (execute_invalid_proposal envBadTool 0 ⟨"about:blank", []⟩ "scroll down"
      "\x7bT\x7d" (.obj [("tool", .str "scroll"), ("args", .obj [])])
      (by decide) rfl).2.1 (.str "scroll") (.obj []) rfl rfl rfl

/-! ## C2: the continuation check and the recursion's context -/

/-- Every round of `execute` opens with a fresh two-message proposal
conversation: the head of the completion-call log is always the rebuilt
proposal context. -/
theorem execute_log_head (env : ExecEnv) (fuel : Nat) (w : World)
    (command : String) :
    (execute env (fuel + 1) w command).2.1.head? =
      some (proposalMessages w.url command) := by
  simp only [execute]
  repeat' split <;> try simp

/-- C2 amended: when the continuation reply contains "DONE" (any letter
case) `execute` returns the last action's result; otherwise it recurses
with the same original command — but the next proposal request is rebuilt
from scratch (system prompt plus current URL and command): the grown
conversation of the finished round is not carried forward. -/
theorem execute_continuation (env : ExecEnv) (fuel : Nat) (w : World)
    (command js : String) (action toolVal args : JsonVal)
    (toolName result : String) (w1 w2 : World)
    (hjs : extractJson (env.llm (proposalMessages w.url command)) = some js)
    (hparse : env.parseJson js = .ok action)
    (htool : action.lookup "tool" = some toolVal)
    (hargs : action.lookup "args" = some args)
    (hname : toolNameOf toolVal = some toolName)
    (hrun : env.runTool toolName args w = .ok (result, w1))
    (hstab : env.stabilize w1 = .ok w2) :
    (strContains (pyUpper
         (env.llm (grownConversation env w command action result w2))) "DONE" = true →
       execute env (fuel + 1) w command =
         (.ok result,
          [proposalMessages w.url command,
           grownConversation env w command action result w2], w2)) ∧
    (strContains (pyUpper
         (env.llm (grownConversation env w command action result w2))) "DONE" = false →
       execute env (fuel + 1) w command =
         ((execute env fuel w2 command).1,
          [proposalMessages w.url command,
           grownConversation env w command action result w2] ++
            (execute env fuel w2 command).2.1,
          (execute env fuel w2 command).2.2) ∧
       (∀ fuel2, (execute env (fuel2 + 1) w2 command).2.1.head? =
          some (proposalMessages w2.url command))) := by
  rcases action with _ | b | n | s | xs | fields
  any_goals exact Option.noConfusion htool
  have htool2 : List.lookup "tool" fields = some toolVal := htool
  have hargs2 : List.lookup "args" fields = some args := hargs
  constructor
  · intro hdone
    simp [execute, JsonVal.lookup, hjs, hparse, htool2, hargs2, hname, hrun,
      hstab, hdone]
  · intro hnot
    refine ⟨?_, fun fuel2 => execute_log_head env fuel2 w2 command⟩
    rcases hrec : execute env fuel w2 command with ⟨r, rest⟩
    simp [execute, JsonVal.lookup, hjs, hparse, htool2, hargs2, hname, hrun,
      hstab, hnot, hrec]

/-- An environment for a one-action command: the proposal round replies
with a JSON object, the action navigates, and the continuation round
replies DONE. -/
def envC2 : ExecEnv :=
  ⟨fun msgs => if msgs.length = 2 then "\x7bJ\x7d" else "DONE",
   fun _ => .ok (.obj [("tool", .str "navigate"),
                       ("args", .obj [("url", .str "example.org")])]),
   fun _ => "ACTION",
   fun _ _ w => .ok ("Navigated to https://example.org/",
     ⟨"https://example.org/", w.history ++ [.navigate "https://example.org/"]⟩),
   fun w => .ok w⟩

/-- C2 witness: with a DONE continuation reply, `execute` returns the
last action's result text. -/
theorem execute_continuation_witness :
    (execute envC2 1 ⟨"about:blank", []⟩ "Go to example.org").1 =
      .ok "Navigated to https://example.org/" := by
  rw [show execute envC2 1 ⟨"about:blank", []⟩ "Go to example.org" =
        (.ok "Navigated to https://example.org/",
         [proposalMessages "about:blank" "Go to example.org",
          grownConversation envC2 ⟨"about:blank", []⟩ "Go to example.org"
            (.obj [("tool", .str "navigate"),
                   ("args", .obj [("url", .str "example.org")])])
            "Navigated to https://example.org/"
            ⟨"https://example.org/", [.navigate "https://example.org/"]⟩],
         ⟨"https://example.org/", [.navigate "https://example.org/"]⟩)
      from (execute_continuation envC2 0 ⟨"about:blank", []⟩ "Go to example.org"
        "\x7bJ\x7d"
        (.obj [("tool", .str "navigate"),
               ("args", .obj [("url", .str "example.org")])])
        (.str "navigate") (.obj [("url", .str "example.org")]) "navigate"
        "Navigated to https://example.org/"
        ⟨"https://example.org/", [.navigate "https://example.org/"]⟩
        ⟨"https://example.org/", [.navigate "https://example.org/"]⟩
        (by decide) rfl rfl rfl rfl rfl rfl).1 (by decide)]

/-- An environment whose continuation reply never contains DONE: every
round executes one action and recurses. -/
def envLoop : ExecEnv :=
  ⟨fun msgs => if msgs.length = 2 then "\x7bJ\x7d" else "NOT YET",
   fun _ => .ok (.obj [("tool", .str "get_text"), ("args", .obj [])]),
   fun _ => "ACTION",
   fun _ _ _ => .ok ("RESULT", ⟨"https://example.org/", []⟩),
   fun w => .ok w⟩

/-- C2 counterexample: after a continuation reply without DONE, the
recursion's proposal request is the rebuilt two-message context — the
grown conversation of the finished round is not carried into it (it is
not even a prefix of it). -/
theorem execute_fresh_context_cex :
    (execute envLoop 2 ⟨"about:blank", []⟩ "find cats").2.1.get? 2 =
      some (proposalMessages "https://example.org/" "find cats") ∧
    ¬ (grownConversation envLoop ⟨"about:blank", []⟩ "find cats"
         (.obj [("tool", .str "get_text"), ("args", .obj [])])
         "RESULT" ⟨"https://example.org/", []⟩ <+:
       proposalMessages "https://example.org/" "find cats") := by
  constructor
  · rfl
  · intro hpre
    have hlen := hpre.length_le
    have h4 : (grownConversation envLoop ⟨"about:blank", []⟩ "find cats"
         (.obj [("tool", .str "get_text"), ("args", .obj [])])
         "RESULT" ⟨"https://example.org/", []⟩).length = 4 := by
      simp [grownConversation, proposalMessages]
    have h2 : (proposalMessages "https://example.org/" "find cats").length = 2 := by
      simp [proposalMessages]
    rw [h4, h2] at hlen
    omega

end Peruse
